import Mathlib

set_option maxRecDepth 100000

/-!
Shallow embedding of the `oura-mcp-server` repository (an MCP server exposing
the Oura Ring REST API as four callable tools) and verification of its
specification claims.

Source files embedded:
* `src/src/oura_mcp/oura_client.py` — the `OuraClient` accessor class.
* `src/server.py` — tool catalog (`handle_list_tools`), dispatcher
  (`handle_call_tool`) and the sleep formatter (`format_sleep_summary`).

Modelling conventions:
* Python JSON values are modelled by `JVal`.  Python distinguishes `int` and
  `float`; a float is carried as an exact unnormalised fraction
  `JNum.float num den` (value `num / den`, `den > 0` in every reachable use).
  IEEE-754 rounding of Python floats is not modelled: every numeric value that
  the claims exercise is exactly representable, and `28800 / 3600`-style
  true division is exact in both the program and the model.
* Python exceptions are modelled by `Except PyErr`; an operation that can
  raise returns `Except PyErr α`.  `try/except` blocks become matches on that
  result.
* HTTP traffic is modelled at the response level by `HttpOutcome`: either a
  response (status code, text body, parsed JSON body) or a transport-level
  failure (`requests.exceptions.RequestException` that is not an `HTTPError`).
  JSON parsing of the body is abstracted: the outcome carries the parsed JSON.
* `os.getenv("OURA_API_TOKEN")`/`load_dotenv` are modelled by an
  `Option String` passed in (`none` = variable absent).
-/

/-- Python numbers: an `int`, or a `float` carried as the exact fraction
`num / den` (unnormalised; `den > 0` in every reachable use). -/
inductive JNum where
  | int (n : Int)
  | float (num : Int) (den : Nat)
deriving DecidableEq

/-- Python JSON-like values as handled by the server: numbers, strings,
booleans, `None`, lists and string-keyed dicts (association lists; Python
dicts have unique keys, lookups take the first match). -/
inductive JVal where
  | jnum (x : JNum)
  | jstr (s : String)
  | jbool (b : Bool)
  | jnull
  | jarr (elems : List JVal)
  | jobj (fields : List (String × JVal))

/-- Python exception classes that occur in the embedded code.
`httpError` is `requests.exceptions.HTTPError` (with its response's status
code and text); `requestError` is any other
`requests.exceptions.RequestException` (DNS failure, timeout, connection
refused). -/
inductive PyErr where
  | valueError (msg : String)
  | typeError (msg : String)
  | attributeError (msg : String)
  | httpError (status : Nat) (text : String)
  | requestError (msg : String)
deriving DecidableEq

/-- Python `str(e)` on an exception, as interpolated by `f"Error: {str(e)}"`.
For the exception classes constructed with a single message argument this is
that message. -/
def PyErr.msg : PyErr → String
  | .valueError m => m
  | .typeError m => m
  | .attributeError m => m
  | .httpError status text => toString status ++ " - " ++ text
  | .requestError m => m

/-- Python truthiness (`bool(v)`) for the values of `JVal`: zero numbers,
empty strings, `False`, `None` and empty containers are falsy. -/
def jTruthy : JVal → Bool
  | .jnum (.int n) => decide (n ≠ 0)
  | .jnum (.float num _) => decide (num ≠ 0)
  | .jstr s => decide (s ≠ "")
  | .jbool b => b
  | .jnull => false
  | .jarr elems => !elems.isEmpty
  | .jobj fields => !fields.isEmpty

/-- Python `v.get(key, default)`: defined on dicts (first matching key, else
the default); on any non-dict value it raises `AttributeError` (no `get`
attribute). -/
def pyGet (v : JVal) (key : String) (default : JVal) : Except PyErr JVal :=
  match v with
  | .jobj fields =>
      .ok ((Option.map Prod.snd (fields.find? (fun kv => kv.1 == key))).getD default)
  | _ => .error (.attributeError ("object has no attribute get: key " ++ key))

/-- Python iteration `for x in v`: lists yield their elements, strings their
one-character substrings, dicts their keys; other values raise `TypeError`. -/
def pyIter (v : JVal) : Except PyErr (List JVal) :=
  match v with
  | .jarr elems => .ok elems
  | .jstr s => .ok (s.toList.map (fun c => .jstr (String.singleton c)))
  | .jobj fields => .ok (fields.map (fun kv => .jstr kv.1))
  | _ => .error (.typeError "object is not iterable")

/-- Decimal digits of the fractional part of `r / q` (first argument is
fuel, bounding the number of digits as Python's float repr does at 17;
stops at a zero remainder). -/
def fracDigits : Nat → Nat → Nat → List Char
  | 0, _, _ => []
  | Nat.succ fuel, r, q =>
      if r = 0 then []
      else Nat.digitChar (r * 10 / q) :: fracDigits fuel (r * 10 % q) q

/-- Decimal rendering of the non-negative fraction `p / q` with at least one
fractional digit, e.g. `8.0`, `0.15`.  Used for Python `str()`/`repr()` of a
float; exact for terminating decimals (Python's shortest-round-trip repr of
non-terminating binary floats is abstracted — no modelled value reaches it). -/
def floatDecimalStr (p q : Nat) : String :=
  let ds := fracDigits 17 (p % q) q
  toString (p / q) ++ "." ++ (if ds = [] then "0" else String.mk ds)

/-- Python `str(v)` for a `float` modelled as `num / den`. -/
def JNum.floatStr (num : Int) (den : Nat) : String :=
  if num < 0 then "-" ++ floatDecimalStr num.natAbs den
  else floatDecimalStr num.natAbs den

/-- Python `str(v)`.  Containers are abstracted to fixed bracket placeholders:
no claim renders a list or dict through `str()`. -/
def pyStr : JVal → String
  | .jnum (.int n) => toString n
  | .jnum (.float num den) => JNum.floatStr num den
  | .jstr s => s
  | .jbool b => if b then "True" else "False"
  | .jnull => "None"
  | .jarr _ => "[...]"
  | .jobj _ => "\x7b...\x7d"

/-- Left-pads a digit string with zeros to width `d`. -/
def padZeros (d : Nat) (s : String) : String :=
  String.mk (List.replicate (d - s.length) '0') ++ s

/-- Fixed-point rendering of the non-negative fraction `p / q` (with `q > 0`)
to `d` decimal places, rounding half to even exactly as Python's `:.df`
format specifier does on the exact value. -/
def fmtFixedParts (d p q : Nat) : String :=
  let scaled := p * 10 ^ d
  let n0 := scaled / q
  let r := scaled % q
  let n :=
    if 2 * r < q then n0
    else if q < 2 * r then n0 + 1
    else if n0 % 2 = 0 then n0 else n0 + 1
  toString (n / 10 ^ d) ++ "." ++ padZeros d (toString (n % 10 ^ d))

/-- Python `f"{x:.df}"` on a number: sign followed by the fixed-point
rendering of the magnitude (round half to even). -/
def JNum.fmtFixed (d : Nat) : JNum → String
  | .int n => if n < 0 then "-" ++ fmtFixedParts d n.natAbs 1 else fmtFixedParts d n.natAbs 1
  | .float num den =>
      if num < 0 then "-" ++ fmtFixedParts d num.natAbs den
      else fmtFixedParts d num.natAbs den

/-- Inserts a thousands separator after every third digit; the input is the
reversed digit list, the output is reversed as well. -/
def groupRev : Nat → List Char → List Char
  | _, [] => []
  | 0, c :: cs => ',' :: c :: groupRev 2 cs
  | Nat.succ k, c :: cs => c :: groupRev k cs

/-- Digit grouping of a decimal digit string: `12345` becomes `12,345`. -/
def groupDigits (s : String) : String :=
  String.mk (groupRev 3 s.toList.reverse).reverse

/-- Python `f"{x:,}"` on a `JVal`: ints (and bools, which are ints) render
with thousands separators; floats group the integer part of their decimal
rendering; strings and other objects raise, as `format(v, ",")` does. -/
def pyFmtComma (v : JVal) : Except PyErr String :=
  match v with
  | .jnum (.int n) =>
      .ok (if n < 0 then "-" ++ groupDigits (toString n.natAbs) else groupDigits (toString n.natAbs))
  | .jnum (.float num den) =>
      .ok ((if num < 0 then "-" else "")
        ++ groupDigits (toString (num.natAbs / den))
        ++ "." ++ (let ds := fracDigits 17 (num.natAbs % den) den
                   if ds = [] then "0" else String.mk ds))
  | .jbool b => .ok (if b then "1" else "0")
  | _ => .error (.valueError "Cannot specify , with s")

/-- Python `f"{v:.df}"` on a raw `JVal`: defined for numbers (and bools,
which are ints); anything else raises a format error. -/
def pyFmtFixedJ (d : Nat) (v : JVal) : Except PyErr String :=
  match v with
  | .jnum x => .ok (JNum.fmtFixed d x)
  | .jbool b => .ok (JNum.fmtFixed d (.int (if b then 1 else 0)))
  | _ => .error (.valueError "Unknown format code f for object")

/-- Python true division `v / m` of a `JVal` by a positive integer literal
(the program only divides by `3600`): ints and floats produce a float with
the exact quotient value; bools are ints; anything else raises `TypeError`. -/
def pyTrueDiv (v : JVal) (m : Nat) : Except PyErr JNum :=
  match v with
  | .jnum (.int n) => .ok (.float n m)
  | .jnum (.float num den) => .ok (.float num (den * m))
  | .jbool b => .ok (.float (if b then 1 else 0) m)
  | _ => .error (.typeError "unsupported operand type(s) for /")

/-- Decidable substring test used to state the "contains" clauses of the
claims: `containsStr hay needle` holds when `needle` occurs contiguously in
`hay`. -/
def containsStr (hay needle : String) : Bool :=
  decide (needle.toList <:+: hay.toList)

-- Quick sanity examples for the formatting primitives (kernel-checked).
example : JNum.fmtFixed 1 (.float 28800 3600) = "8.0" := rfl
example : JNum.fmtFixed 1 (.float 5400 3600) = "1.5" := rfl
example : JNum.fmtFixed 2 (.int 0) = "0.00" := rfl
example : JNum.fmtFixed 2 (.float (-15) 100) = "-0.15" := rfl
example : groupDigits "12345" = "12,345" := rfl
example : groupDigits "123" = "123" := rfl
example : groupDigits "1234567" = "1,234,567" := rfl
example : pyStr (.jnum (.float 25 10)) = "2.5" := rfl
example : containsStr "abcdef" "cde" = true := by decide
example : containsStr "abcdef" "ce" = false := by decide

/-! ## Accessor: `src/src/oura_mcp/oura_client.py` -/

/-- Outcome of one HTTP GET issued through `requests.get`: either a response
(status code, text body, parsed JSON body) or a transport-level failure
(a `requests.exceptions.RequestException` that is not an `HTTPError`, e.g.
DNS failure, timeout, connection refused). -/
inductive HttpOutcome where
  | response (status : Nat) (text : String) (json : JVal)
  | transportError (msg : String)

/-- Client for interacting with the Oura API (`class OuraClient`): holds the
bearer token and the derived `Authorization` header, both set in
`__init__`. -/
structure OuraClient where
  api_token : String
  headers : List (String × String)
deriving DecidableEq

/-- Python string truthiness of an optional string (`None` and `""` are
falsy), as used by `api_token or os.getenv(...)` / `if not self.api_token`. -/
def strTruthy : Option String → Bool
  | none => false
  | some s => decide (s ≠ "")

/-- Python `a or b` on optional strings: `a` if truthy, else `b`. -/
def pyOrStr (a b : Option String) : Option String :=
  if strTruthy a then a else b

/-- Message of the `ValueError` raised by `OuraClient.__init__` when no
token is available. -/
def tokenErrMsg : String :=
  "Oura API token not found. Please set OURA_API_TOKEN in your .env file or pass it directly to OuraClient."

/-- Embeds `OuraClient.__init__(api_token)`: `self.api_token = api_token or
os.getenv("OURA_API_TOKEN")`; if the result is falsy (`None` or empty),
raises `ValueError` immediately; otherwise stores the token and its bearer
header.  `env_token` is the value of `OURA_API_TOKEN` after `load_dotenv()`
(`none` = unset). -/
def OuraClient.init (api_token : Option String) (env_token : Option String) :
    Except PyErr OuraClient :=
  let tok := pyOrStr api_token env_token
  match tok with
  | some t =>
      if t = "" then .error (.valueError tokenErrMsg)
      else .ok ⟨t, [("Authorization", "Bearer " ++ t)]⟩
  | none => .error (.valueError tokenErrMsg)

/-- Embeds `requests.get(url, ...)`: a transport-level failure raises a
`RequestException`; otherwise the response triple is returned. -/
def requests_get (outcome : HttpOutcome) : Except PyErr (Nat × String × JVal) :=
  match outcome with
  | .response status text json => .ok (status, text, json)
  | .transportError msg => .error (.requestError msg)

/-- Embeds `response.raise_for_status()`: raises `HTTPError` exactly when the
status code is in 400–599. -/
def raise_for_status (status : Nat) (text : String) : Except PyErr Unit :=
  if 400 ≤ status ∧ status ≤ 599 then .error (.httpError status text) else .ok ()

/-- Embeds `OuraClient._make_request`: GET the endpoint, `raise_for_status`,
return the parsed JSON; `except HTTPError` maps 401 to an authentication
`ValueError`, 429 to a rate-limit `ValueError`, any other 4xx/5xx to a
generic `ValueError` carrying status code and body; `except
RequestException` maps transport failures to a network `ValueError` carrying
the cause.  The outcome of the single GET is the `outcome` argument. -/
def make_request (_client : OuraClient) (outcome : HttpOutcome) : Except PyErr JVal :=
  match requests_get outcome with
  | .ok (status, text, json) =>
      match raise_for_status status text with
      | .ok _ => .ok json
      | .error (.httpError s b) =>
          if s = 401 then
            .error (.valueError "Authentication failed. Please check your Oura API token.")
          else if s = 429 then
            .error (.valueError "Rate limit exceeded. Please try again later.")
          else
            .error (.valueError ("API request failed: " ++ toString s ++ " - " ++ b))
      | .error e => .error e
  | .error (.requestError msg) => .error (.valueError ("Network error: " ++ msg))
  | .error e => .error e

/-- Embeds `OuraClient.test_connection`: GET the fixed `personal_info`
endpoint, `raise_for_status`, return `True`; `except Exception: return
False`.  Total — every exception inside the `try` block yields `false`. -/
def test_connection (_client : OuraClient) (outcome : HttpOutcome) : Bool :=
  match (do
      let r ← requests_get outcome
      let _ ← raise_for_status r.1 r.2.1
      pure true : Except PyErr Bool) with
  | .ok b => b
  | .error _ => false

/-- Embeds `OuraClient.get_sleep_data`: `_make_request("sleep", params)` then
`response.get("data", [])`. -/
def get_sleep_data (client : OuraClient) (outcome : HttpOutcome) : Except PyErr JVal := do
  let response ← make_request client outcome
  pyGet response "data" (.jarr [])

/-- Embeds `OuraClient.get_activity_data`: `_make_request("daily_activity",
params)` then `response.get("data", [])`. -/
def get_activity_data (client : OuraClient) (outcome : HttpOutcome) : Except PyErr JVal := do
  let response ← make_request client outcome
  pyGet response "data" (.jarr [])

/-- Embeds `OuraClient.get_readiness_data`: `_make_request("daily_readiness",
params)` then `response.get("data", [])`. -/
def get_readiness_data (client : OuraClient) (outcome : HttpOutcome) : Except PyErr JVal := do
  let response ← make_request client outcome
  pyGet response "data" (.jarr [])

/-! ## Server: `src/server.py` -/

/-- External world of one server process, as far as the embedded code
observes it: the value of the `OURA_API_TOKEN` environment variable (after
`load_dotenv()`), and the outcome each endpoint's GET would have if issued.
Each tool invocation performs at most one GET, so one outcome per endpoint
suffices. -/
structure Env where
  oura_api_token : Option String
  personal_info : HttpOutcome
  sleep : HttpOutcome
  daily_activity : HttpOutcome
  daily_readiness : HttpOutcome

/-- Embeds `get_client()`: returns the module-global singleton if already
constructed (`st`), otherwise constructs `OuraClient()` — which reads the
token from the environment and raises if none is available. -/
def get_client (st : Option OuraClient) (env : Env) : Except PyErr OuraClient :=
  match st with
  | some c => .ok c
  | none => OuraClient.init none env.oura_api_token

/-- Embeds the loop body of `format_sleep_summary` for one session dict:
`day` defaults to `"Unknown date"`, the four durations default to `0` and
are true-divided by 3600, `sleep_efficiency` defaults to `0`; the block is
the triple-quoted f-string of the source (leading and trailing newline
included, durations rendered with `:.1f`, efficiency with plain `str`). -/
def sleep_session_summary (session : JVal) : Except PyErr String := do
  let day ← pyGet session "day" (.jstr "Unknown date")
  let total_sleep ← pyTrueDiv (← pyGet session "total_sleep_duration" (.jnum (.int 0))) 3600
  let rem_sleep ← pyTrueDiv (← pyGet session "rem_sleep_duration" (.jnum (.int 0))) 3600
  let deep_sleep ← pyTrueDiv (← pyGet session "deep_sleep_duration" (.jnum (.int 0))) 3600
  let light_sleep ← pyTrueDiv (← pyGet session "light_sleep_duration" (.jnum (.int 0))) 3600
  let efficiency ← pyGet session "sleep_efficiency" (.jnum (.int 0))
  pure ("\nDate: " ++ pyStr day
    ++ "\nTotal Sleep: " ++ JNum.fmtFixed 1 total_sleep ++ " hours"
    ++ "\nSleep Efficiency: " ++ pyStr efficiency ++ "%"
    ++ "\nSleep Stages:"
    ++ "\n  - REM: " ++ JNum.fmtFixed 1 rem_sleep ++ " hours"
    ++ "\n  - Deep: " ++ JNum.fmtFixed 1 deep_sleep ++ " hours"
    ++ "\n  - Light: " ++ JNum.fmtFixed 1 light_sleep ++ " hours\n")

/-- Embeds `format_sleep_summary(sleep_data)`: falsy input (in particular an
empty list) yields the fixed no-data message; otherwise each session is
formatted and the blocks are joined with `"\n---\n"`. -/
def format_sleep_summary (sleep_data : JVal) : Except PyErr String :=
  if jTruthy sleep_data = false then
    .ok "No sleep data found for the specified date range."
  else do
    let sessions ← pyIter sleep_data
    let summaries ← sessions.mapM sleep_session_summary
    pure (String.intercalate "\n---\n" summaries)

/-- Embeds the loop body of the `get_activity_data` branch of
`handle_call_tool` for one day dict: `day` defaults to `"Unknown"`, `steps`,
`active_calories` and `total_calories` default to `0`; `steps` is rendered
with the `:,` thousands separator, the calories with plain `str`. -/
def activity_entry_summary (day_data : JVal) : Except PyErr String := do
  let day ← pyGet day_data "day" (.jstr "Unknown")
  let steps ← pyGet day_data "steps" (.jnum (.int 0))
  let active_calories ← pyGet day_data "active_calories" (.jnum (.int 0))
  let total_calories ← pyGet day_data "total_calories" (.jnum (.int 0))
  let stepsStr ← pyFmtComma steps
  pure ("Date: " ++ pyStr day ++ "\nSteps: " ++ stepsStr
    ++ "\nActive Calories: " ++ pyStr active_calories
    ++ "\nTotal Calories: " ++ pyStr total_calories)

/-- Embeds the loop body of the `get_readiness_data` branch of
`handle_call_tool` for one day dict: `day` defaults to `"Unknown"`, `score`
and `temperature_deviation` default to `0`; the score is rendered with plain
`str` before `"/100"`, the temperature deviation with `:.2f` before the
degree mark. -/
def readiness_entry_summary (day_data : JVal) : Except PyErr String := do
  let day ← pyGet day_data "day" (.jstr "Unknown")
  let score ← pyGet day_data "score" (.jnum (.int 0))
  let temperature_deviation ← pyGet day_data "temperature_deviation" (.jnum (.int 0))
  let tdStr ← pyFmtFixedJ 2 temperature_deviation
  pure ("Date: " ++ pyStr day ++ "\nReadiness Score: " ++ pyStr score
    ++ "/100\nTemperature Deviation: " ++ tdStr ++ "°C")

/-- One property of a tool's JSON input schema (`type` and `description`). -/
structure PropertySchema where
  type : String
  description : String
deriving DecidableEq

/-- A tool's JSON input schema as declared in `handle_list_tools`:
`type: "object"`, named properties, required property names, and the
`additionalProperties` flag. -/
structure InputSchema where
  type : String
  properties : List (String × PropertySchema)
  required : List String
  additionalProperties : Bool
deriving DecidableEq

/-- One `types.Tool` of the catalog. -/
structure Tool where
  name : String
  description : String
  inputSchema : InputSchema
deriving DecidableEq

/-- The `start_date` property schema shared by the three data tools. -/
def startDateProp : String × PropertySchema :=
  ("start_date", ⟨"string", "Start date in YYYY-MM-DD format"⟩)

/-- The `end_date` property schema shared by the three data tools. -/
def endDateProp : String × PropertySchema :=
  ("end_date", ⟨"string", "End date in YYYY-MM-DD format"⟩)

/-- Embeds `handle_list_tools()`: the fixed four-tool catalog, in source
order, with the exact names, descriptions and input schemas of the source.
The function has no side effects (it returns a literal). -/
def handle_list_tools : List Tool :=
  [ ⟨"get_oura_status", "Check if Oura token is configured and test connection",
      ⟨"object", [], [], false⟩⟩,
    ⟨"get_sleep_data", "Get sleep data from Oura for a date range",
      ⟨"object", [startDateProp, endDateProp], ["start_date", "end_date"], false⟩⟩,
    ⟨"get_activity_data", "Get daily activity data from Oura",
      ⟨"object", [startDateProp, endDateProp], ["start_date", "end_date"], false⟩⟩,
    ⟨"get_readiness_data", "Get readiness scores from Oura",
      ⟨"object", [startDateProp, endDateProp], ["start_date", "end_date"], false⟩⟩ ]

/-- One `types.TextContent(type="text", text=...)` item. -/
structure TextContent where
  type : String
  text : String
deriving DecidableEq

/-- Python `arguments.get(key)` on the argument dict: `none` when the key is
absent (Python `None`). -/
def argsGet (arguments : List (String × JVal)) (key : String) : Option JVal :=
  Option.map Prod.snd (arguments.find? (fun kv => kv.1 == key))

/-- Python `not x` on an optional value (`arguments.get` result): `None` and
falsy values are `not`-true. -/
def pyNotOpt (o : Option JVal) : Bool :=
  match o with
  | none => true
  | some v => !jTruthy v

/-- Python `str()` of an `arguments.get` result, as interpolated into the
header f-strings (`none` would print `None`; unreachable behind the
truthiness guard). -/
def pyStrOpt (o : Option JVal) : String :=
  match o with
  | none => "None"
  | some v => pyStr v

/-- Embeds the body of the `try:` block of `handle_call_tool(name,
arguments)` (source order preserved: `get_client()` first, then the
`if/elif` chain on the tool name).  Returns the raw outcome of the block
(`.ok` content list, or the uncaught-as-yet exception) paired with the
number of outbound HTTP calls the invocation performed (instrumentation for
the zero-network-calls and no-retry claims: each `test_connection` or
`get_*_data` call performs exactly one GET). -/
def handle_call_tool_try (env : Env) (st : Option OuraClient) (name : String)
    (arguments : List (String × JVal)) : Except PyErr (List TextContent) × Nat :=
  match get_client st env with
  | .error e => (.error e, 0)
  | .ok client =>
    if name = "get_oura_status" then
      if test_connection client env.personal_info then
        (.ok [⟨"text", "✅ Oura connection successful! Your API token is configured correctly."⟩], 1)
      else
        (.ok [⟨"text", "❌ Could not connect to Oura. Please check your API token in the .env file."⟩], 1)
    else if name = "get_sleep_data" then
      let start_date := argsGet arguments "start_date"
      let end_date := argsGet arguments "end_date"
      if pyNotOpt start_date || pyNotOpt end_date then
        (.ok [⟨"text", "❌ Please provide both start_date and end_date in YYYY-MM-DD format."⟩], 0)
      else
        match get_sleep_data client env.sleep with
        | .error e => (.error e, 1)
        | .ok sleep_data =>
          match format_sleep_summary sleep_data with
          | .error e => (.error e, 1)
          | .ok summary =>
            (.ok [⟨"text", "Sleep data from " ++ pyStrOpt start_date ++ " to "
              ++ pyStrOpt end_date ++ ":\n\n" ++ summary⟩], 1)
    else if name = "get_activity_data" then
      let start_date := argsGet arguments "start_date"
      let end_date := argsGet arguments "end_date"
      if pyNotOpt start_date || pyNotOpt end_date then
        (.ok [⟨"text", "❌ Please provide both start_date and end_date in YYYY-MM-DD format."⟩], 0)
      else
        match get_activity_data client env.daily_activity with
        | .error e => (.error e, 1)
        | .ok activity_data =>
          if jTruthy activity_data = false then
            (.ok [⟨"text", "No activity data found from " ++ pyStrOpt start_date ++ " to "
              ++ pyStrOpt end_date ++ "."⟩], 1)
          else
            match (do
                let entries ← pyIter activity_data
                entries.mapM activity_entry_summary : Except PyErr (List String)) with
            | .error e => (.error e, 1)
            | .ok summaries =>
              (.ok [⟨"text", "Activity data from " ++ pyStrOpt start_date ++ " to "
                ++ pyStrOpt end_date ++ ":\n\n"
                ++ String.intercalate "\n\n---\n\n" summaries⟩], 1)
    else if name = "get_readiness_data" then
      let start_date := argsGet arguments "start_date"
      let end_date := argsGet arguments "end_date"
      if pyNotOpt start_date || pyNotOpt end_date then
        (.ok [⟨"text", "❌ Please provide both start_date and end_date in YYYY-MM-DD format."⟩], 0)
      else
        match get_readiness_data client env.daily_readiness with
        | .error e => (.error e, 1)
        | .ok readiness_data =>
          if jTruthy readiness_data = false then
            (.ok [⟨"text", "No readiness data found from " ++ pyStrOpt start_date ++ " to "
              ++ pyStrOpt end_date ++ "."⟩], 1)
          else
            match (do
                let entries ← pyIter readiness_data
                entries.mapM readiness_entry_summary : Except PyErr (List String)) with
            | .error e => (.error e, 1)
            | .ok summaries =>
              (.ok [⟨"text", "Readiness data from " ++ pyStrOpt start_date ++ " to "
                ++ pyStrOpt end_date ++ ":\n\n"
                ++ String.intercalate "\n\n---\n\n" summaries⟩], 1)
    else
      (.ok [⟨"text", "Unknown tool: " ++ name⟩], 0)

/-- Embeds `handle_call_tool(name, arguments)` in full: a `None` argument
dict becomes empty, the `try:` body runs, and `except Exception as e:`
converts any raised exception into the single text item
`"Error: {str(e)}"`.  The second component counts the outbound HTTP calls
performed (see `handle_call_tool_try`). -/
def handle_call_tool (env : Env) (st : Option OuraClient) (name : String)
    (arguments? : Option (List (String × JVal))) : List TextContent × Nat :=
  let arguments := arguments?.getD []
  match handle_call_tool_try env st name arguments with
  | (.ok items, n) => (items, n)
  | (.error e, n) => ([⟨"text", "Error: " ++ e.msg⟩], n)

/-! ## Shared fixtures for the claim theorems -/

/-- A 200 response whose JSON body has an empty `data` list. -/
def emptyDataOutcome : HttpOutcome := .response 200 "" (.jobj [("data", .jarr [])])

/-- A sample constructed client. -/
def clientEx : OuraClient := ⟨"token123", [("Authorization", "Bearer token123")]⟩

/-- A sample environment with a configured token. -/
def envEx : Env :=
  ⟨some "token123", emptyDataOutcome, emptyDataOutcome, emptyDataOutcome, emptyDataOutcome⟩

/-- An environment with no `OURA_API_TOKEN` configured. -/
def envNoToken : Env :=
  ⟨none, emptyDataOutcome, emptyDataOutcome, emptyDataOutcome, emptyDataOutcome⟩

/-- The sleep record of the specification's worked example. -/
def sleepRecEx : JVal :=
  .jobj [("day", .jstr "2024-01-01"),
         ("total_sleep_duration", .jnum (.int 28800)),
         ("rem_sleep_duration", .jnum (.int 7200)),
         ("deep_sleep_duration", .jnum (.int 5400)),
         ("light_sleep_duration", .jnum (.int 14400)),
         ("sleep_efficiency", .jnum (.int 92))]

/-- The block `format_sleep_summary` produces for `sleepRecEx`. -/
def sleepRecExOut : String :=
  "\nDate: 2024-01-01\nTotal Sleep: 8.0 hours\nSleep Efficiency: 92%\nSleep Stages:\n  - REM: 2.0 hours\n  - Deep: 1.5 hours\n  - Light: 4.0 hours\n"

/-! ## Claim theorems -/

/-- C6: for the worked sleep record, the formatted block is exactly the
expected block and contains `Total Sleep: 8.0 hours`,
`Sleep Efficiency: 92%`, `REM: 2.0 hours`, `Deep: 1.5 hours` and
`Light: 4.0 hours`; in general, each duration field is the seconds value
divided by 3600 rendered to one decimal place, and the efficiency is
printed by plain `str` with no conversion. -/
theorem claim_C6_sleep_formatting :
    format_sleep_summary (.jarr [sleepRecEx]) = .ok sleepRecExOut ∧
    containsStr sleepRecExOut "Total Sleep: 8.0 hours" = true ∧
    containsStr sleepRecExOut "Sleep Efficiency: 92%" = true ∧
    containsStr sleepRecExOut "REM: 2.0 hours" = true ∧
    containsStr sleepRecExOut "Deep: 1.5 hours" = true ∧
    containsStr sleepRecExOut "Light: 4.0 hours" = true ∧
    (∀ (day eff : JVal) (t r d l : Int),
      sleep_session_summary
          (.jobj [("day", day),
                  ("total_sleep_duration", .jnum (.int t)),
                  ("rem_sleep_duration", .jnum (.int r)),
                  ("deep_sleep_duration", .jnum (.int d)),
                  ("light_sleep_duration", .jnum (.int l)),
                  ("sleep_efficiency", eff)]) =
        .ok ("\nDate: " ++ pyStr day
          ++ "\nTotal Sleep: " ++ JNum.fmtFixed 1 (.float t 3600) ++ " hours"
          ++ "\nSleep Efficiency: " ++ pyStr eff ++ "%"
          ++ "\nSleep Stages:"
          ++ "\n  - REM: " ++ JNum.fmtFixed 1 (.float r 3600) ++ " hours"
          ++ "\n  - Deep: " ++ JNum.fmtFixed 1 (.float d 3600) ++ " hours"
          ++ "\n  - Light: " ++ JNum.fmtFixed 1 (.float l 3600) ++ " hours\n")) :=
  ⟨rfl, rfl, rfl, rfl, rfl, rfl, fun _ _ _ _ _ _ => rfl⟩

/-- C1 counterexample: the claim says every missing date field is read as
the placeholder `"Unknown date"`, but the activity and readiness renderers
default a missing `day` to `"Unknown"`; on a record with no fields their
output contains `Date: Unknown` and does not contain `Unknown date`. -/
theorem claim_C1_counterexample :
    activity_entry_summary (.jobj []) =
      .ok "Date: Unknown\nSteps: 0\nActive Calories: 0\nTotal Calories: 0" ∧
    containsStr "Date: Unknown\nSteps: 0\nActive Calories: 0\nTotal Calories: 0"
      "Unknown date" = false ∧
    readiness_entry_summary (.jobj []) =
      .ok "Date: Unknown\nReadiness Score: 0/100\nTemperature Deviation: 0.00°C" ∧
    containsStr "Date: Unknown\nReadiness Score: 0/100\nTemperature Deviation: 0.00°C"
      "Unknown date" = false :=
  ⟨rfl, rfl, rfl, rfl⟩

/-- C1 (amended): a missing numeric field is read as zero and a missing
`day` field is read as a placeholder — `"Unknown date"` for sleep records,
`"Unknown"` for activity and readiness records; no record with absent
fields causes any of the three renderers to fail.  The closed conjuncts
evaluate each renderer on the empty record; the final conjunct shows any
record none of whose keys are the sleep keys formats to the same
all-defaults block. -/
theorem claim_C1_defaults :
    sleep_session_summary (.jobj []) =
      .ok "\nDate: Unknown date\nTotal Sleep: 0.0 hours\nSleep Efficiency: 0%\nSleep Stages:\n  - REM: 0.0 hours\n  - Deep: 0.0 hours\n  - Light: 0.0 hours\n" ∧
    activity_entry_summary (.jobj []) =
      .ok "Date: Unknown\nSteps: 0\nActive Calories: 0\nTotal Calories: 0" ∧
    readiness_entry_summary (.jobj []) =
      .ok "Date: Unknown\nReadiness Score: 0/100\nTemperature Deviation: 0.00°C" ∧
    (∀ fields : List (String × JVal),
      fields.find? (fun kv => kv.1 == "day") = none →
      fields.find? (fun kv => kv.1 == "total_sleep_duration") = none →
      fields.find? (fun kv => kv.1 == "rem_sleep_duration") = none →
      fields.find? (fun kv => kv.1 == "deep_sleep_duration") = none →
      fields.find? (fun kv => kv.1 == "light_sleep_duration") = none →
      fields.find? (fun kv => kv.1 == "sleep_efficiency") = none →
      sleep_session_summary (.jobj fields) =
        .ok "\nDate: Unknown date\nTotal Sleep: 0.0 hours\nSleep Efficiency: 0%\nSleep Stages:\n  - REM: 0.0 hours\n  - Deep: 0.0 hours\n  - Light: 0.0 hours\n") := by
  refine ⟨rfl, rfl, rfl, ?_⟩
  intro fields h1 h2 h3 h4 h5 h6
  simp only [sleep_session_summary, pyGet, h1, h2, h3, h4, h5, h6]
  rfl

/-- C1 witness: the final conjunct of `claim_C1_defaults` applied to a
record whose only key is unrelated to the sleep schema. -/
theorem claim_C1_defaults_witness :
    sleep_session_summary (.jobj [("foo", .jstr "bar")]) =
      .ok "\nDate: Unknown date\nTotal Sleep: 0.0 hours\nSleep Efficiency: 0%\nSleep Stages:\n  - REM: 0.0 hours\n  - Deep: 0.0 hours\n  - Light: 0.0 hours\n" :=
  claim_C1_defaults.2.2.2 [("foo", .jstr "bar")] rfl rfl rfl rfl rfl rfl

/-- C9: `handle_list_tools` is the fixed ordered four-tool catalog —
`get_oura_status` with no required arguments and no declared properties,
then the three data tools each requiring exactly `start_date` and
`end_date` — and every schema sets `additionalProperties: false`,
rejecting unknown properties.  The function is a constant, hence stable
and side-effect-free. -/
theorem claim_C9_catalog :
    handle_list_tools.map Tool.name =
      ["get_oura_status", "get_sleep_data", "get_activity_data", "get_readiness_data"] ∧
    handle_list_tools.map (fun t => t.inputSchema.required) =
      [[], ["start_date", "end_date"], ["start_date", "end_date"], ["start_date", "end_date"]] ∧
    handle_list_tools.map (fun t => t.inputSchema.properties.map Prod.fst) =
      [[], ["start_date", "end_date"], ["start_date", "end_date"], ["start_date", "end_date"]] ∧
    handle_list_tools.map (fun t => t.inputSchema.additionalProperties) =
      [false, false, false, false] ∧
    handle_list_tools.map (fun t => t.inputSchema.type) =
      ["object", "object", "object", "object"] ∧
    handle_list_tools.length = 4 :=
  ⟨rfl, rfl, rfl, rfl, rfl, rfl⟩

/-- C2 counterexample: the claim calls the absence of a credential a fatal,
process-terminating condition, but the server constructs the client lazily
inside the dispatcher's `try` block, so with no token configured an
invocation is answered with a normal single `Error: ...` text result (and
zero network calls) — nothing terminates. -/
theorem claim_C2_counterexample :
    OuraClient.init none none = .error (.valueError tokenErrMsg) ∧
    handle_call_tool envNoToken none "get_oura_status" none =
      ([⟨"text", "Error: " ++ tokenErrMsg⟩], 0) :=
  ⟨rfl, rfl⟩

/-- C2 (amended): constructing the Accessor with no explicit token and none
in the environment raises a configuration error immediately at construction
(fail-fast, also for an empty-string token), and construction with a
non-empty token succeeds eagerly storing it; but because the server
constructs the client lazily inside the dispatcher's exception handler, a
missing credential does not terminate the process: every invocation under a
missing credential returns the single caught `Error: ...` text result with
zero network calls. -/
theorem claim_C2_credential (name : String) (args? : Option (List (String × JVal)))
    (t : String) (ht : t ≠ "") :
    OuraClient.init none none = .error (.valueError tokenErrMsg) ∧
    OuraClient.init (some "") none = .error (.valueError tokenErrMsg) ∧
    OuraClient.init (some "") (some "") = .error (.valueError tokenErrMsg) ∧
    OuraClient.init (some t) none = .ok ⟨t, [("Authorization", "Bearer " ++ t)]⟩ ∧
    OuraClient.init none (some t) = .ok ⟨t, [("Authorization", "Bearer " ++ t)]⟩ ∧
    handle_call_tool envNoToken none name args? =
      ([⟨"text", "Error: " ++ tokenErrMsg⟩], 0) := by
  refine ⟨rfl, rfl, rfl, ?_, ?_, rfl⟩
  · simp [OuraClient.init, pyOrStr, strTruthy, ht]
  · simp [OuraClient.init, pyOrStr, strTruthy, ht]

/-- C2 witness: `claim_C2_credential` applied at tool `get_sleep_data`, no
arguments and token `"token123"`. -/
theorem claim_C2_credential_witness :
    OuraClient.init (some "token123") none =
      .ok ⟨"token123", [("Authorization", "Bearer token123")]⟩ ∧
    handle_call_tool envNoToken none "get_sleep_data" none =
      ([⟨"text", "Error: " ++ tokenErrMsg⟩], 0) := by
  have h := claim_C2_credential "get_sleep_data" none "token123" (by decide)
  exact ⟨h.2.2.2.1, h.2.2.2.2.2⟩

/-- C8: the connectivity probe is a total boolean function of the GET's
outcome: any 2xx response yields `true`; any 4xx/5xx response (which raises
`HTTPError` inside the `try`) and any transport-level failure (network
failure, timeout) yields `false` — no outcome raises. -/
theorem claim_C8_probe (c : OuraClient) (s2 s4 : Nat) (body : String) (j : JVal)
    (m : String) (h2a : 200 ≤ s2) (h2b : s2 ≤ 299) (h4a : 400 ≤ s4) (h4b : s4 ≤ 599) :
    test_connection c (.response s2 body j) = true ∧
    test_connection c (.response s4 body j) = false ∧
    test_connection c (.transportError m) = false := by
  refine ⟨?_, ?_, rfl⟩
  · have hlt : ¬(400 ≤ s2 ∧ s2 ≤ 599) := by omega
    simp [test_connection, requests_get, raise_for_status, hlt, Except.instMonad,
      Bind.bind, Except.bind, Functor.map, Except.map, Pure.pure, Except.pure]
  · have hin : 400 ≤ s4 ∧ s4 ≤ 599 := ⟨h4a, h4b⟩
    simp [test_connection, requests_get, raise_for_status, hin, Except.instMonad,
      Bind.bind, Except.bind, Functor.map, Except.map]

/-- C8 witness: `claim_C8_probe` at a 200 and a 500 response. -/
theorem claim_C8_probe_witness :
    test_connection clientEx (.response 200 "" .jnull) = true ∧
    test_connection clientEx (.response 500 "oops" .jnull) = false ∧
    test_connection clientEx (.transportError "connection refused") = false :=
  claim_C8_probe clientEx 200 500 "" .jnull "connection refused"
    (by norm_num) (by norm_num) (by norm_num) (by norm_num)

/-- C5: the accessor maps each HTTP failure of a fetch to exactly one
`ValueError` the dispatcher stringifies — 401 to the authentication
message, 429 to the rate-limit message, any other 4xx/5xx to the generic
message carrying status code and body, a transport-level failure to the
network message carrying the cause — and a 401 on a data fetch surfaces as
the single `Error: ...` tool text with exactly one outbound call (no
retry). -/
theorem claim_C5_error_mapping (c : OuraClient) (body : String) (j : JVal) (s : Nat)
    (m tok : String) (pi act red : HttpOutcome)
    (hs4 : 400 ≤ s) (hs5 : s ≤ 599) (h401 : s ≠ 401) (h429 : s ≠ 429) :
    make_request c (.response 401 body j) =
      .error (.valueError "Authentication failed. Please check your Oura API token.") ∧
    make_request c (.response 429 body j) =
      .error (.valueError "Rate limit exceeded. Please try again later.") ∧
    make_request c (.response s body j) =
      .error (.valueError ("API request failed: " ++ toString s ++ " - " ++ body)) ∧
    make_request c (.transportError m) =
      .error (.valueError ("Network error: " ++ m)) ∧
    handle_call_tool ⟨some tok, pi, .response 401 body j, act, red⟩ (some c)
        "get_sleep_data"
        (some [("start_date", .jstr "2024-01-01"), ("end_date", .jstr "2024-01-07")]) =
      ([⟨"text", "Error: " ++ "Authentication failed. Please check your Oura API token."⟩], 1) := by
  refine ⟨rfl, rfl, ?_, rfl, rfl⟩
  have hin : 400 ≤ s ∧ s ≤ 599 := ⟨hs4, hs5⟩
  simp [make_request, requests_get, raise_for_status, hin, h401, h429]

/-- C5 witness: `claim_C5_error_mapping` at a 500 response with body
`oops`. -/
theorem claim_C5_error_mapping_witness :
    make_request clientEx (.response 500 "oops" .jnull) =
      .error (.valueError ("API request failed: " ++ toString 500 ++ " - " ++ "oops")) ∧
    handle_call_tool ⟨some "token123", emptyDataOutcome, .response 401 "oops" .jnull,
        emptyDataOutcome, emptyDataOutcome⟩ (some clientEx) "get_sleep_data"
        (some [("start_date", .jstr "2024-01-01"), ("end_date", .jstr "2024-01-07")]) =
      ([⟨"text", "Error: " ++ "Authentication failed. Please check your Oura API token."⟩], 1) := by
  have h := claim_C5_error_mapping clientEx "oops" .jnull 500 "down" "token123"
    emptyDataOutcome emptyDataOutcome emptyDataOutcome
    (by norm_num) (by norm_num) (by norm_num) (by norm_num)
  exact ⟨h.2.2.1, h.2.2.2.2⟩

/-- C4: with a constructed client, invoking any of the three data tools
with `start_date` or `end_date` absent or the empty string returns the
validation-failure text and performs zero outbound calls. -/
theorem claim_C4_validation (env : Env) (c : OuraClient) (name : String)
    (args : List (String × JVal))
    (hname : name = "get_sleep_data" ∨ name = "get_activity_data" ∨ name = "get_readiness_data")
    (hmiss : argsGet args "start_date" = none ∨ argsGet args "start_date" = some (.jstr "")
      ∨ argsGet args "end_date" = none ∨ argsGet args "end_date" = some (.jstr "")) :
    handle_call_tool env (some c) name (some args) =
      ([⟨"text", "❌ Please provide both start_date and end_date in YYYY-MM-DD format."⟩], 0) := by
  have hcond : (pyNotOpt (argsGet args "start_date")
      || pyNotOpt (argsGet args "end_date")) = true := by
    rcases hmiss with h | h | h | h <;> simp [pyNotOpt, h, jTruthy]
  rcases hname with h | h | h <;> subst h <;>
    simp [handle_call_tool, handle_call_tool_try, get_client, hcond]

/-- C4 witness: `claim_C4_validation` for `get_sleep_data` with `end_date`
absent and `start_date` present. -/
theorem claim_C4_validation_witness :
    handle_call_tool envEx (some clientEx) "get_sleep_data"
        (some [("start_date", .jstr "2024-01-01")]) =
      ([⟨"text", "❌ Please provide both start_date and end_date in YYYY-MM-DD format."⟩], 0) :=
  claim_C4_validation envEx clientEx "get_sleep_data" [("start_date", .jstr "2024-01-01")]
    (Or.inl rfl) (Or.inr (Or.inr (Or.inl rfl)))

/-- C7: with a constructed client and non-empty dates, a fetch returning an
empty `data` list makes each of the three data tools answer with its
explicit no-data message containing the requested date range (for sleep,
the range header precedes the no-data body), as a single text item after
exactly one outbound call — never an empty body. -/
theorem claim_C7_no_data (c : OuraClient) (tok : Option String) (pi : HttpOutcome)
    (s e : String) (hs : s ≠ "") (he : e ≠ "") :
    handle_call_tool ⟨tok, pi, emptyDataOutcome, emptyDataOutcome, emptyDataOutcome⟩ (some c)
        "get_sleep_data" (some [("start_date", .jstr s), ("end_date", .jstr e)]) =
      ([⟨"text", "Sleep data from " ++ s ++ " to " ++ e ++ ":\n\n"
        ++ "No sleep data found for the specified date range."⟩], 1) ∧
    handle_call_tool ⟨tok, pi, emptyDataOutcome, emptyDataOutcome, emptyDataOutcome⟩ (some c)
        "get_activity_data" (some [("start_date", .jstr s), ("end_date", .jstr e)]) =
      ([⟨"text", "No activity data found from " ++ s ++ " to " ++ e ++ "."⟩], 1) ∧
    handle_call_tool ⟨tok, pi, emptyDataOutcome, emptyDataOutcome, emptyDataOutcome⟩ (some c)
        "get_readiness_data" (some [("start_date", .jstr s), ("end_date", .jstr e)]) =
      ([⟨"text", "No readiness data found from " ++ s ++ " to " ++ e ++ "."⟩], 1) := by
  have ha : argsGet [("start_date", .jstr s), ("end_date", .jstr e)] "start_date"
      = some (.jstr s) := rfl
  have hb : argsGet [("start_date", .jstr s), ("end_date", .jstr e)] "end_date"
      = some (.jstr e) := rfl
  have h1 : pyNotOpt (some (JVal.jstr s)) = false := by simp [pyNotOpt, jTruthy, hs]
  have h2 : pyNotOpt (some (JVal.jstr e)) = false := by simp [pyNotOpt, jTruthy, he]
  have hsleep : get_sleep_data c emptyDataOutcome = .ok (.jarr []) := rfl
  have hact : get_activity_data c emptyDataOutcome = .ok (.jarr []) := rfl
  have hred : get_readiness_data c emptyDataOutcome = .ok (.jarr []) := rfl
  refine ⟨?_, ?_, ?_⟩ <;>
    simp [handle_call_tool, handle_call_tool_try, get_client, ha, hb, h1, h2,
      hsleep, hact, hred, format_sleep_summary, jTruthy, pyStrOpt, pyStr]

/-- C7 witness: `claim_C7_no_data` at the concrete range 2024-01-01 to
2024-01-07. -/
theorem claim_C7_no_data_witness :
    handle_call_tool ⟨some "token123", emptyDataOutcome, emptyDataOutcome, emptyDataOutcome,
        emptyDataOutcome⟩ (some clientEx) "get_sleep_data"
        (some [("start_date", .jstr "2024-01-01"), ("end_date", .jstr "2024-01-07")]) =
      ([⟨"text", "Sleep data from " ++ "2024-01-01" ++ " to " ++ "2024-01-07" ++ ":\n\n"
        ++ "No sleep data found for the specified date range."⟩], 1) :=
  (claim_C7_no_data clientEx (some "token123") emptyDataOutcome "2024-01-01" "2024-01-07"
    (by decide) (by decide)).1

/-- C10: for data-tool invocations the dispatcher reads only the
`start_date` and `end_date` keys of the argument dict: two argument dicts
whose lookups agree on those two keys produce identical results against
the same environment — extra or unknown keys change nothing and are not
rejected at dispatch time. -/
theorem claim_C10_arg_independence (env : Env) (st : Option OuraClient) (name : String)
    (a1 a2 : List (String × JVal))
    (_hname : name = "get_sleep_data" ∨ name = "get_activity_data" ∨ name = "get_readiness_data")
    (h1 : argsGet a1 "start_date" = argsGet a2 "start_date")
    (h2 : argsGet a1 "end_date" = argsGet a2 "end_date") :
    handle_call_tool env st name (some a1) = handle_call_tool env st name (some a2) := by
  simp only [handle_call_tool, handle_call_tool_try, Option.getD, h1, h2]

/-- C10 witness: an unknown extra argument key (`verbose`) does not change
the result of a sleep-data invocation. -/
theorem claim_C10_arg_independence_witness :
    handle_call_tool envEx (some clientEx) "get_sleep_data"
        (some [("start_date", .jstr "2024-01-01"), ("end_date", .jstr "2024-01-07"),
               ("verbose", .jbool true)]) =
      handle_call_tool envEx (some clientEx) "get_sleep_data"
        (some [("start_date", .jstr "2024-01-01"), ("end_date", .jstr "2024-01-07")]) :=
  claim_C10_arg_independence envEx (some clientEx) "get_sleep_data"
    [("start_date", .jstr "2024-01-01"), ("end_date", .jstr "2024-01-07"),
     ("verbose", .jbool true)]
    [("start_date", .jstr "2024-01-01"), ("end_date", .jstr "2024-01-07")]
    (Or.inl rfl) rfl rfl

/-- Shape predicate for the raw `try:`-block outcome: when the block
completes without raising, its content list is a single text item. -/
def okSingleText : Except PyErr (List TextContent) × Nat → Prop
  | (.ok items, _) => ∃ s, items = [⟨"text", s⟩]
  | (.error _, _) => True

/-- Every branch of the dispatcher's `try:` block that completes without
raising returns exactly one text content item. -/
theorem handle_call_tool_try_single (env : Env) (st : Option OuraClient) (name : String)
    (arguments : List (String × JVal)) :
    okSingleText (handle_call_tool_try env st name arguments) := by
  simp only [handle_call_tool_try]
  repeat' split
  all_goals first | trivial | exact ⟨_, rfl⟩

/-- C3: every invocation of the dispatcher — any tool name, any argument
dict (or none), any environment and client state — returns exactly one
text content item; and whenever the `try:` body raises an exception `e`,
the returned item's text is exactly `"Error: " ++ str(e)`.  No exception
escapes: `handle_call_tool` is a total function into content lists. -/
theorem claim_C3_catch_all (env : Env) (st : Option OuraClient) (name : String)
    (args? : Option (List (String × JVal))) :
    (∃ s, (handle_call_tool env st name args?).1 = [⟨"text", s⟩]) ∧
    (∀ e : PyErr,
      (handle_call_tool_try env st name (args?.getD [])).1 = .error e →
      (handle_call_tool env st name args?).1 = [⟨"text", "Error: " ++ e.msg⟩]) := by
  have hshape := handle_call_tool_try_single env st name (args?.getD [])
  rcases hres : handle_call_tool_try env st name (args?.getD []) with ⟨res, n⟩
  rw [hres] at hshape
  constructor
  · cases res with
    | ok items =>
        obtain ⟨s, hs⟩ := hshape
        refine ⟨s, ?_⟩
        simp only [handle_call_tool, hres, hs]
    | error e =>
        refine ⟨"Error: " ++ e.msg, ?_⟩
        simp only [handle_call_tool, hres]
  · intro e he
    simp only at he
    cases res with
    | ok items => simp at he
    | error e0 =>
        have : e0 = e := by simpa using he
        subst this
        simp only [handle_call_tool, hres]

/-- C3 witness: `claim_C3_catch_all` at an invocation whose `try:` body
raises (no credential configured): the result is the single caught
`Error: ...` text item. -/
theorem claim_C3_catch_all_witness :
    (handle_call_tool envNoToken none "get_sleep_data" none).1 =
      [⟨"text", "Error: " ++ tokenErrMsg⟩] := by
  have h := claim_C3_catch_all envNoToken none "get_sleep_data" none
  exact h.2 (.valueError tokenErrMsg) rfl
